import Mathlib

/-!
Shallow embedding of `src/repro.mjs`: a diagnostic script that runs the same
streaming generation request twice (directly via `ai.streamText` and through a
Braintrust tracing wrapper) and renders both event streams in a split-pane
terminal UI with mirrored scrolling.

Modelling conventions:
* The blessed toolkit's screen-buffer mechanics are out of scope; each panel
  exposes its accumulated lines, its scroll position as a percentage, and the
  capability to scroll.  `screen.render()` has no effect on this state.
* Every raw scroll-position update on a box fires that box's `scroll` event,
  whose installed handler is `syncScroll(box, otherBox)` (lines 125-126 of the
  source).  Event emission carries a fuel bound; the `syncing` guard makes the
  result independent of the fuel (proved below), so no behaviour is truncated.
* The network/model layer is out of scope: a consumer's streamed lines and the
  follow-up retrieval values are inputs (`StreamOutcome`), and a failed run is
  an input recording the lines emitted before the error and the error itself.
-/

namespace Repro

/-- The two panels: `left` is `leftBox` (WITHOUT Braintrust), `right` is
`rightBox` (WITH Braintrust). -/
inductive Side where
  | left
  | right
deriving DecidableEq

/-- The paired panel (the target of scroll synchronization). -/
def Side.other : Side → Side
  | .left => .right
  | .right => .left

/-- Observable TUI state: each panel's accumulated lines (`leftLines`,
`rightLines` arrays of the source), each panel's scroll percentage, the
`syncing` guard flag (line 114), the focused box (line 129), and the left
box's height (used by the pageup/pagedown handlers). -/
structure St where
  leftLines : List String
  rightLines : List String
  leftPerc : Nat
  rightPerc : Nat
  syncing : Bool
  focused : Side
  leftHeight : Nat
deriving DecidableEq

/-- `box.getScrollPerc()` for the given panel. -/
def getScrollPerc (s : St) : Side → Nat
  | .left => s.leftPerc
  | .right => s.rightPerc

/-- Raw scroll-position update (the toolkit clamps the percentage to the
0..100 range); does not fire the `scroll` event. -/
def setScrollPercRaw (side : Side) (p : Nat) (s : St) : St :=
  match side with
  | .left => { s with leftPerc := min p 100 }
  | .right => { s with rightPerc := min p 100 }

/-- `lines.push(msg)` followed by `box.setContent(lines.join("\n"))`: the
panel's content is always the join of its line list, so we track the list. -/
def pushLine (side : Side) (msg : String) (s : St) : St :=
  match side with
  | .left => { s with leftLines := s.leftLines ++ [msg] }
  | .right => { s with rightLines := s.rightLines ++ [msg] }

/-- Content string a panel displays: `lines.join("\n")`. -/
def panelContent (lines : List String) : String :=
  String.intercalate "\n" lines

/-- Body of `syncScroll(source, target)` (source lines 116-123), with the
`scroll` event fired by the target's raw update abstracted as `emit`:
if the guard is held, return; otherwise set the guard, copy the source's
percentage onto the paired panel, let the target's scroll event run, render,
and release the guard. -/
def syncOnce (emit : Side → St → St) (src : Side) (s : St) : St :=
  if s.syncing then s
  else
    let s1 := { s with syncing := true }
    let p := getScrollPerc s1 src
    let s2 := setScrollPercRaw (Side.other src) p s1
    let s3 := emit (Side.other src) s2
    { s3 with syncing := false }

/-- Firing the `scroll` event of a box runs its handler
`syncScroll(box, otherBox)`; `fuel` bounds the emission depth.  The `syncing`
guard stops the recursion at depth one, so any positive fuel gives the same
result (see `emitScroll_of_syncing` and `syncScroll_fuel` below). -/
def emitScroll : Nat → Side → St → St
  | 0, _, s => s
  | Nat.succ f, src, s => syncOnce (emitScroll f) src s

/-- `syncScroll(box, otherBox)` with emission budget `f` for the scroll event
fired inside the propagation. -/
def syncScroll (f : Nat) (src : Side) (s : St) : St :=
  syncOnce (emitScroll f) src s

/-- `box.setScrollPerc(p)`: raw update plus the `scroll` event it fires. -/
def setScrollPerc (f : Nat) (side : Side) (p : Nat) (s : St) : St :=
  emitScroll f side (setScrollPercRaw side p s)

/-- `logLeft(msg)` (source lines 179-184): push the line, re-render content,
scroll to bottom (which fires the scroll event), then call
`syncScroll(leftBox, rightBox)` explicitly. -/
def logLeft (f : Nat) (msg : String) (s : St) : St :=
  syncScroll f .left (setScrollPerc f .left 100 (pushLine .left msg s))

/-- `logRight(msg)` (source lines 186-191). -/
def logRight (f : Nat) (msg : String) (s : St) : St :=
  syncScroll f .right (setScrollPerc f .right 100 (pushLine .right msg s))

/-- Fold a sequence of appends into the left panel. -/
def appendAllLeft (f : Nat) (msgs : List String) (s : St) : St :=
  msgs.foldl (fun st m => logLeft f m st) s

/-- Fold a sequence of appends into the right panel. -/
def appendAllRight (f : Nat) (msgs : List String) (s : St) : St :=
  msgs.foldl (fun st m => logRight f m st) s

/-! ### Startup model selection (source lines 9-28) -/

/-- JavaScript truthiness of an environment variable: `undefined` and the
empty string are falsy, every other string is truthy. -/
def truthy : Option String → Bool
  | none => false
  | some s => !(s == "")

/-- Result of startup: either a selected model (id and displayed name) or a
fatal exit with the given stderr lines and exit code. -/
inductive Startup where
  | selected (modelId : String) (modelName : String)
  | fatal (stderrLines : List String) (exitCode : Nat)
deriving DecidableEq

/-- The two stderr lines printed when neither key is present (lines 25-26). -/
def missingKeyErrors : List String :=
  ["Error: Neither ANTHROPIC_API_KEY nor OPENAI_API_KEY is set.",
   "Please set one of them in your .env file."]

/-- The two recognized credential environment variables. -/
structure Env where
  anthropicKey : Option String
  openaiKey : Option String
deriving DecidableEq

/-- Model selection (lines 12-28): `ANTHROPIC_API_KEY` wins, then
`OPENAI_API_KEY`, otherwise print the two errors and exit with code 1. -/
def selectModel (env : Env) : Startup :=
  if truthy env.anthropicKey then Startup.selected "claude-3-5-haiku-latest" "Claude 3.5 Haiku"
  else if truthy env.openaiKey then Startup.selected "gpt-4o-mini" "GPT-4o Mini"
  else Startup.fatal missingKeyErrors 1

/-- Screen title, built only after a model was selected (line 61); `none`
models the fatal path where `process.exit(1)` runs before any UI exists. -/
def uiTitle : Startup → Option String
  | .selected _ name => some ("Braintrust Async Generator Repro - " ++ name)
  | .fatal _ _ => none

/-! ### The greeting tool (source lines 34-56) -/

/-- One status object yielded by the tool's `execute` generator:
`{status, message}` for progress updates, `{status, greeting}` for the final
value. -/
structure ToolStatus where
  status : String
  message : Option String
  greeting : Option String
deriving DecidableEq

/-- One step of the generator body: either a `logFn` call or a `yield`. -/
inductive ExecStep where
  | log (msg : String)
  | yielded (y : ToolStatus)
deriving DecidableEq

/-- The `execute` generator of `createGreetingTool` (lines 43-55), as the
sequence of `logFn` calls and yields it performs for a given `name`. -/
def greetingExecute (name : String) : List ExecStep :=
  [ .log ("[execute] Starting generator for: " ++ name),
    .yielded { status := "starting", message := some "Preparing greeting...", greeting := none },
    .log "[execute] Yielded starting status",
    .yielded { status := "processing", message := some ("Looking up " ++ name ++ "..."), greeting := none },
    .log "[execute] Yielded processing status",
    .yielded { status := "generating", message := some "Generating greeting...", greeting := none },
    .log "[execute] Yielded generating status",
    .log "[execute] Returning final result",
    .yielded { status := "done", message := none, greeting := some ("Hello, " ++ name ++ "!") } ]

/-- The values the generator yields, in order. -/
def execYields (name : String) : List ToolStatus :=
  (greetingExecute name).filterMap fun step =>
    match step with
    | .log _ => none
    | .yielded y => some y

/-- One incremental unit of a generation response reaching the consumer. -/
inductive StreamEvent where
  | toolUpdate (payload : ToolStatus)
deriving DecidableEq

/-- Modelled from the spec: the AI SDK's conversion of tool-execute yields
into stream events is library code absent from `src/`; per the spec, "each
yielded value surfaces as a distinct StreamEvent to the consumer", in order. -/
def surfaceYields (ys : List ToolStatus) : List StreamEvent :=
  ys.map StreamEvent.toolUpdate

/-! ### The two stream consumers (source lines 203-259) -/

/-- What one successful streaming run provides to a consumer: the lines
appended during the `for await` loop (part blocks interleaved with the tool's
`logFn` lines), and the values of the follow-up retrievals — `result.text`,
`result.toolCalls` and `result.toolResults` — already formatted. -/
structure StreamOutcome where
  streamLines : List String
  finalText : String
  toolCallsStr : String
  toolResultsStr : String
deriving DecidableEq

def doneLine : String := "{green-fg}Done!{/green-fg}"

def finalTextHeader : String := "{yellow-fg}=== Final Text ==={/yellow-fg}"

def toolCallsHeader : String := "{yellow-fg}=== Tool Calls ==={/yellow-fg}"

def toolResultsHeader : String := "{yellow-fg}=== Tool Results ==={/yellow-fg}"

/-- Lines `testWithoutWrapping` appends to the left panel on a successful run
(source lines 203-234): start banner, streamed lines, then the three summary
sections (final text — with the `finalText || "(empty)"` fallback — tool
calls, tool results) and the Done line. -/
def testWithoutWrapping (r : StreamOutcome) : List String :=
  "{yellow-fg}Starting test (ai.streamText)...{/yellow-fg}\n" ::
  r.streamLines ++
  [finalTextHeader,
   (if r.finalText = "" then "(empty)" else r.finalText),
   "",
   toolCallsHeader, r.toolCallsStr, "",
   toolResultsHeader, r.toolResultsStr, "",
   doneLine]

/-- Lines `testWithWrapping` appends to the right panel on a successful run
(source lines 236-259): start banner, streamed lines, then only the
tool-results summary section and the Done line. -/
def testWithWrapping (r : StreamOutcome) : List String :=
  "{yellow-fg}Starting test (wrappedStreamText)...{/yellow-fg}\n" ::
  r.streamLines ++
  [toolResultsHeader, r.toolResultsStr, "", doneLine]

/-- The red error line a consumer's catch handler appends (lines 266, 270). -/
def errorLine (msg : String) : String :=
  "{red-fg}Error: " ++ msg ++ "{/red-fg}"

/-- The cause line appended when the error carries a cause (lines 267, 271);
the argument is the JSON-rendered cause. -/
def causeLine (c : String) : String :=
  "Cause: " ++ c

/-- Lines appended by a consumer's catch handler: the red error line, plus
the cause line exactly when the error carries a cause object. -/
def catchLines (msg : String) (cause : Option String) : List String :=
  errorLine msg :: (match cause with | some c => [causeLine c] | none => [])

/-- How one consumer's task ends: either the run succeeds with the given
stream outcome, or it throws after having appended `emitted` lines, with the
error's message and optional JSON-rendered cause. -/
inductive ConsumerOutcome where
  | success (r : StreamOutcome)
  | failure (emitted : List String) (msg : String) (cause : Option String)
deriving DecidableEq

/-- All lines the left task appends (body plus catch handler). -/
def taskLinesLeft : ConsumerOutcome → List String
  | .success r => testWithoutWrapping r
  | .failure emitted msg cause => emitted ++ catchLines msg cause

/-- All lines the right task appends (body plus catch handler). -/
def taskLinesRight : ConsumerOutcome → List String
  | .success r => testWithWrapping r
  | .failure emitted msg cause => emitted ++ catchLines msg cause

/-! ### The concurrent pair and the settle-all join (source lines 264-276) -/

/-- Lines each task has yet to append.  Both tasks are settled when both
lists are empty. -/
structure Tasks where
  leftPending : List String
  rightPending : List String
deriving DecidableEq

/-- One cooperative step of the event loop: resume the chosen task (left when
`pick` is true) and let it append its next line; a settled task idles. -/
def stepTask (f : Nat) (pick : Bool) (q : Tasks × St) : Tasks × St :=
  if pick then
    match q.1.leftPending with
    | [] => q
    | m :: rest => (⟨rest, q.1.rightPending⟩, logLeft f m q.2)
  else
    match q.1.rightPending with
    | [] => q
    | m :: rest => (⟨q.1.leftPending, rest⟩, logRight f m q.2)

/-- Run a whole interleaving schedule of the two tasks. -/
def runSched (f : Nat) (sched : List Bool) (q : Tasks × St) : Tasks × St :=
  sched.foldl (fun acc pick => stepTask f pick acc) q

def pressQuitLine : String := "\n{bold}Press q to quit{/bold}"

/-- `Promise.all([...]).then(...)` (lines 264-276): run the two tasks under
the given interleaving; each task's rejection is already converted to normal
settlement by its own catch handler, so the join fires exactly when both
pending lists are drained, and then appends the press-quit notice to both
panels. -/
def appRun (f : Nat) (sched : List Bool) (oL oR : ConsumerOutcome) (s : St) : Tasks × St :=
  let q := runSched f sched (⟨taskLinesLeft oL, taskLinesRight oR⟩, s)
  if q.1 = ⟨[], []⟩ then (q.1, logRight f pressQuitLine (logLeft f pressQuitLine q.2)) else q

/-! ### Global scroll keys and focus (source lines 129-174) -/

/-- Action of a global scroll key: scroll by a line delta (`box.scroll`) or
jump to a percentage (`box.setScrollPerc`). -/
inductive GKeyAct where
  | byDelta (d : Int)
  | toPerc (p : Nat)
deriving DecidableEq

/-- The key table of lines 144-172: up/k and down/j scroll by one line,
pageup/pagedown by the left box's height, home/g and end/S-g jump to the top
and to the bottom.  Every binding targets `leftBox`. -/
def globalScrollAct (key : String) (height : Nat) : Option GKeyAct :=
  if key = "up" ∨ key = "k" then some (GKeyAct.byDelta (-1))
  else if key = "down" ∨ key = "j" then some (GKeyAct.byDelta 1)
  else if key = "pageup" then some (GKeyAct.byDelta (-(height : Int)))
  else if key = "pagedown" then some (GKeyAct.byDelta (height : Int))
  else if key = "home" ∨ key = "g" then some (GKeyAct.toPerc 0)
  else if key = "end" ∨ key = "S-g" then some (GKeyAct.toPerc 100)
  else none

/-- Raw effect of a key action on a panel's position, before the scroll event
fires.  The toolkit's line-delta behaviour on the position is out of scope and
is supplied as `impl` (current percentage and delta to new percentage). -/
def applyActRaw (impl : Nat → Int → Nat) (side : Side) (a : GKeyAct) (s : St) : St :=
  match a with
  | .byDelta d => setScrollPercRaw side (impl (getScrollPerc s side) d) s
  | .toPerc p => setScrollPercRaw side p s

/-- A global scroll key's handler: apply the action to `leftBox` (raw update
plus the scroll event it fires), then call `syncScroll(leftBox, rightBox)`
explicitly, exactly as every handler in lines 144-172 does. -/
def handleGlobalKey (impl : Nat → Int → Nat) (f : Nat) (key : String) (s : St) : St :=
  match globalScrollAct key s.leftHeight with
  | none => s
  | some a => syncScroll f .left (emitScroll f .left (applyActRaw impl .left a s))

/-- The tab handler (lines 132-141): toggle which box has focus. -/
def handleTab (s : St) : St :=
  { s with focused := Side.other s.focused }

/-- A sample line-delta behaviour used when instantiating theorems about the
key handlers at concrete inputs. -/
def implSample : Nat → Int → Nat :=
  fun p _ => p + 1

/-- A sample state with panels of different content lengths, guard free,
focus on the right panel. -/
def sampleSt : St :=
  { leftLines := ["a"], rightLines := ["b", "c"], leftPerc := 40,
    rightPerc := 10, syncing := false, focused := Side.right, leftHeight := 5 }

/-! ### Basic lemmas about the scroll primitives -/

@[simp]
theorem setScrollPercRaw_syncing (side : Side) (p : Nat) (s : St) :
    (setScrollPercRaw side p s).syncing = s.syncing := by
  cases side <;> rfl

@[simp]
theorem setScrollPercRaw_leftLines (side : Side) (p : Nat) (s : St) :
    (setScrollPercRaw side p s).leftLines = s.leftLines := by
  cases side <;> rfl

@[simp]
theorem setScrollPercRaw_rightLines (side : Side) (p : Nat) (s : St) :
    (setScrollPercRaw side p s).rightLines = s.rightLines := by
  cases side <;> rfl

@[simp]
theorem setScrollPercRaw_focused (side : Side) (p : Nat) (s : St) :
    (setScrollPercRaw side p s).focused = s.focused := by
  cases side <;> rfl

@[simp]
theorem setScrollPercRaw_leftHeight (side : Side) (p : Nat) (s : St) :
    (setScrollPercRaw side p s).leftHeight = s.leftHeight := by
  cases side <;> rfl

theorem getScrollPerc_setScrollPercRaw_same (side : Side) (p : Nat) (s : St) :
    getScrollPerc (setScrollPercRaw side p s) side = min p 100 := by
  cases side <;> rfl

theorem getScrollPerc_setScrollPercRaw_other (side : Side) (p : Nat) (s : St) :
    getScrollPerc (setScrollPercRaw side p s) (Side.other side) =
      getScrollPerc s (Side.other side) := by
  cases side <;> rfl

@[simp]
theorem getScrollPerc_setSyncing (s : St) (b : Bool) (side : Side) :
    getScrollPerc { s with syncing := b } side = getScrollPerc s side := by
  cases side <;> rfl

/-- A scroll event fired while the guard is held does nothing: its handler is
`syncScroll`, whose first line returns when `syncing` is true. -/
@[simp]
theorem emitScroll_of_syncing (f : Nat) (src : Side) (s : St)
    (h : s.syncing = true) : emitScroll f src s = s := by
  cases f with
  | zero => rfl
  | succ g => simp [emitScroll, syncOnce, h]

/-- A `syncScroll` call entered while the guard is held returns without
modifying the state. -/
theorem syncScroll_of_syncing (f : Nat) (src : Side) (s : St)
    (h : s.syncing = true) : syncScroll f src s = s := by
  simp [syncScroll, syncOnce, h]

/-- Closed form of a synchronization started with the guard free: it copies
the source panel's percentage onto the paired panel and restores the guard;
the nested scroll event fired by the target's update is stopped by the held
guard, so the fuel is irrelevant. -/
theorem syncScroll_of_not_syncing (f : Nat) (src : Side) (s : St)
    (h : s.syncing = false) :
    syncScroll f src s =
      setScrollPercRaw (Side.other src) (getScrollPerc s src) s := by
  unfold syncScroll syncOnce
  rw [h]
  simp only [Bool.false_eq_true, if_false, getScrollPerc_setSyncing]
  rw [emitScroll_of_syncing _ _ _ (by simp)]
  cases src <;> cases s <;> simp [setScrollPercRaw, Side.other] at h ⊢ <;> exact h

/-- `syncScroll` never leaves the guard held. -/
theorem syncScroll_syncing (f : Nat) (src : Side) (s : St) :
    (syncScroll f src s).syncing = s.syncing := by
  cases h : s.syncing with
  | false => rw [syncScroll_of_not_syncing f src s h, setScrollPercRaw_syncing, h]
  | true => rw [syncScroll_of_syncing f src s h]; exact h

/-- `syncScroll` with any fuel equals `syncScroll` with no fuel: the guard
makes the nested emission a no-op, so nothing is truncated by the bound. -/
theorem syncScroll_fuel (f : Nat) (src : Side) (s : St) :
    syncScroll f src s = syncScroll 0 src s := by
  cases h : s.syncing with
  | false => rw [syncScroll_of_not_syncing f src s h, syncScroll_of_not_syncing 0 src s h]
  | true => rw [syncScroll_of_syncing f src s h, syncScroll_of_syncing 0 src s h]

theorem emitScroll_succ (f : Nat) (src : Side) (s : St) :
    emitScroll (Nat.succ f) src s = syncScroll f src s := rfl

theorem syncScroll_leftLines (f : Nat) (src : Side) (s : St) :
    (syncScroll f src s).leftLines = s.leftLines := by
  cases h : s.syncing with
  | false => rw [syncScroll_of_not_syncing f src s h, setScrollPercRaw_leftLines]
  | true => rw [syncScroll_of_syncing f src s h]

theorem syncScroll_rightLines (f : Nat) (src : Side) (s : St) :
    (syncScroll f src s).rightLines = s.rightLines := by
  cases h : s.syncing with
  | false => rw [syncScroll_of_not_syncing f src s h, setScrollPercRaw_rightLines]
  | true => rw [syncScroll_of_syncing f src s h]

/-- Closed form of `logLeft`: the line is appended to the left panel only,
the left panel is scrolled to the bottom, and — when the guard is free — the
synchronization mirrors the bottom position onto the right panel. -/
theorem logLeft_closed (f : Nat) (msg : String) (s : St) :
    logLeft f msg s =
      { s with leftLines := s.leftLines ++ [msg], leftPerc := 100,
               rightPerc := if s.syncing then s.rightPerc else 100 } := by
  unfold logLeft setScrollPerc
  cases hb : s.syncing with
  | true =>
    rw [emitScroll_of_syncing _ _ _ (by simp [pushLine, hb])]
    rw [syncScroll_of_syncing _ _ _ (by simp [pushLine, hb])]
    cases s
    simp_all [pushLine, setScrollPercRaw]
  | false =>
    have h1 : (setScrollPercRaw Side.left 100 (pushLine Side.left msg s)).syncing = false := by
      simp [pushLine, hb]
    cases f with
    | zero =>
      rw [show emitScroll 0 Side.left (setScrollPercRaw Side.left 100 (pushLine Side.left msg s)) =
            setScrollPercRaw Side.left 100 (pushLine Side.left msg s) from rfl]
      rw [syncScroll_of_not_syncing _ _ _ h1]
      cases s
      simp_all [pushLine, setScrollPercRaw, getScrollPerc, Side.other]
    | succ g =>
      rw [emitScroll_succ, syncScroll_of_not_syncing _ _ _ h1]
      rw [syncScroll_of_not_syncing _ _ _ (by simp [pushLine, hb])]
      cases s
      simp_all [pushLine, setScrollPercRaw, getScrollPerc, Side.other]

/-- Closed form of `logRight`, mirror image of `logLeft_closed`. -/
theorem logRight_closed (f : Nat) (msg : String) (s : St) :
    logRight f msg s =
      { s with rightLines := s.rightLines ++ [msg], rightPerc := 100,
               leftPerc := if s.syncing then s.leftPerc else 100 } := by
  unfold logRight setScrollPerc
  cases hb : s.syncing with
  | true =>
    rw [emitScroll_of_syncing _ _ _ (by simp [pushLine, hb])]
    rw [syncScroll_of_syncing _ _ _ (by simp [pushLine, hb])]
    cases s
    simp_all [pushLine, setScrollPercRaw]
  | false =>
    have h1 : (setScrollPercRaw Side.right 100 (pushLine Side.right msg s)).syncing = false := by
      simp [pushLine, hb]
    cases f with
    | zero =>
      rw [show emitScroll 0 Side.right (setScrollPercRaw Side.right 100 (pushLine Side.right msg s)) =
            setScrollPercRaw Side.right 100 (pushLine Side.right msg s) from rfl]
      rw [syncScroll_of_not_syncing _ _ _ h1]
      cases s
      simp_all [pushLine, setScrollPercRaw, getScrollPerc, Side.other]
    | succ g =>
      rw [emitScroll_succ, syncScroll_of_not_syncing _ _ _ h1]
      rw [syncScroll_of_not_syncing _ _ _ (by simp [pushLine, hb])]
      cases s
      simp_all [pushLine, setScrollPercRaw, getScrollPerc, Side.other]

/-! ### Lemmas about appends and the task scheduler -/

theorem logLeft_leftLines (f : Nat) (msg : String) (s : St) :
    (logLeft f msg s).leftLines = s.leftLines ++ [msg] := by
  rw [logLeft_closed]

theorem logLeft_rightLines (f : Nat) (msg : String) (s : St) :
    (logLeft f msg s).rightLines = s.rightLines := by
  rw [logLeft_closed]

theorem logRight_rightLines (f : Nat) (msg : String) (s : St) :
    (logRight f msg s).rightLines = s.rightLines ++ [msg] := by
  rw [logRight_closed]

theorem logRight_leftLines (f : Nat) (msg : String) (s : St) :
    (logRight f msg s).leftLines = s.leftLines := by
  rw [logRight_closed]

theorem appendAllLeft_leftLines (f : Nat) (msgs : List String) (s : St) :
    (appendAllLeft f msgs s).leftLines = s.leftLines ++ msgs := by
  induction msgs generalizing s with
  | nil => simp [appendAllLeft]
  | cons m rest ih =>
    show (appendAllLeft f rest (logLeft f m s)).leftLines = _
    rw [ih, logLeft_leftLines, List.append_assoc]
    rfl

theorem appendAllRight_rightLines (f : Nat) (msgs : List String) (s : St) :
    (appendAllRight f msgs s).rightLines = s.rightLines ++ msgs := by
  induction msgs generalizing s with
  | nil => simp [appendAllRight]
  | cons m rest ih =>
    show (appendAllRight f rest (logRight f m s)).rightLines = _
    rw [ih, logRight_rightLines, List.append_assoc]
    rfl

theorem appendAllLeft_leftPerc (f : Nat) (msgs : List String) (s : St)
    (h : msgs ≠ []) : (appendAllLeft f msgs s).leftPerc = 100 := by
  induction msgs generalizing s with
  | nil => exact absurd rfl h
  | cons m rest ih =>
    show (appendAllLeft f rest (logLeft f m s)).leftPerc = 100
    cases rest with
    | nil => show (logLeft f m s).leftPerc = 100; rw [logLeft_closed]
    | cons m2 rest2 => exact ih (logLeft f m s) (by simp)

theorem appendAllRight_rightPerc (f : Nat) (msgs : List String) (s : St)
    (h : msgs ≠ []) : (appendAllRight f msgs s).rightPerc = 100 := by
  induction msgs generalizing s with
  | nil => exact absurd rfl h
  | cons m rest ih =>
    show (appendAllRight f rest (logRight f m s)).rightPerc = 100
    cases rest with
    | nil => show (logRight f m s).rightPerc = 100; rw [logRight_closed]
    | cons m2 rest2 => exact ih (logRight f m s) (by simp)

/-- Scheduler invariant: along any interleaving, the lines already in a panel
followed by that task's still-pending lines are constant — lines are moved
from the pending queue to the panel in order and nothing else touches them. -/
theorem runSched_invariant (f : Nat) (sched : List Bool) (q : Tasks × St) :
    (runSched f sched q).2.leftLines ++ (runSched f sched q).1.leftPending =
        q.2.leftLines ++ q.1.leftPending ∧
    (runSched f sched q).2.rightLines ++ (runSched f sched q).1.rightPending =
        q.2.rightLines ++ q.1.rightPending := by
  induction sched generalizing q with
  | nil => exact ⟨rfl, rfl⟩
  | cons pick rest ih =>
    have step : runSched f (pick :: rest) q = runSched f rest (stepTask f pick q) := rfl
    rw [step, (ih (stepTask f pick q)).1, (ih (stepTask f pick q)).2]
    clear ih
    constructor
    · cases pick with
      | true =>
        cases hq : q.1.leftPending with
        | nil => simp [stepTask, hq]
        | cons m rest2 => simp [stepTask, hq, logLeft_leftLines]
      | false =>
        cases hq : q.1.rightPending with
        | nil => simp [stepTask, hq]
        | cons m rest2 => simp [stepTask, hq, logRight_leftLines]
    · cases pick with
      | true =>
        cases hq : q.1.leftPending with
        | nil => simp [stepTask, hq]
        | cons m rest2 => simp [stepTask, hq, logLeft_rightLines]
      | false =>
        cases hq : q.1.rightPending with
        | nil => simp [stepTask, hq]
        | cons m rest2 => simp [stepTask, hq, logRight_rightLines]

/-- When a schedule settles both tasks, the app state after the join has each
panel holding its initial lines, then everything its own task appended, then
the press-quit notice — for every pair of outcomes and every interleaving. -/
theorem appRun_lines (f : Nat) (sched : List Bool) (oL oR : ConsumerOutcome)
    (s : St) (h : (appRun f sched oL oR s).1 = ⟨[], []⟩) :
    (appRun f sched oL oR s).2.leftLines =
        s.leftLines ++ taskLinesLeft oL ++ [pressQuitLine] ∧
    (appRun f sched oL oR s).2.rightLines =
        s.rightLines ++ taskLinesRight oR ++ [pressQuitLine] := by
  have hq : (runSched f sched (⟨taskLinesLeft oL, taskLinesRight oR⟩, s)).1 = ⟨[], []⟩ := by
    by_cases hc : (runSched f sched (⟨taskLinesLeft oL, taskLinesRight oR⟩, s)).1 = ⟨[], []⟩
    · exact hc
    · exact absurd (by simp only [appRun, if_neg hc] at h; exact h) hc
  have inv := runSched_invariant f sched (⟨taskLinesLeft oL, taskLinesRight oR⟩, s)
  rw [hq] at inv
  simp only [List.append_nil] at inv
  have happ : appRun f sched oL oR s =
      ((⟨[], []⟩ : Tasks),
        logRight f pressQuitLine (logLeft f pressQuitLine
          (runSched f sched (⟨taskLinesLeft oL, taskLinesRight oR⟩, s)).2)) := by
    simp [appRun, hq]
  rw [happ]
  constructor
  · rw [logRight_leftLines, logLeft_leftLines, inv.1, List.append_assoc]
  · rw [logRight_rightLines, logLeft_rightLines, inv.2, List.append_assoc]

/-! ### Lemmas for the global scroll keys -/

theorem setScrollPercRaw_focusUpdate (side : Side) (p : Nat) (s : St) (fc : Side) :
    setScrollPercRaw side p { s with focused := fc } =
      { setScrollPercRaw side p s with focused := fc } := by
  cases side <;> rfl

theorem pushLine_focusUpdate (side : Side) (m : String) (s : St) (fc : Side) :
    pushLine side m { s with focused := fc } =
      { pushLine side m s with focused := fc } := by
  cases side <;> rfl

theorem getScrollPerc_focusUpdate (s : St) (fc : Side) (side : Side) :
    getScrollPerc { s with focused := fc } side = getScrollPerc s side := by
  cases side <;> rfl

theorem syncScroll_focusUpdate (f : Nat) (src : Side) (s : St) (fc : Side) :
    syncScroll f src { s with focused := fc } =
      { syncScroll f src s with focused := fc } := by
  cases s with
  | mk ll rl lp rp sy fo lh =>
    cases sy with
    | true => rfl
    | false =>
      rw [syncScroll_of_not_syncing _ _ _ rfl, syncScroll_of_not_syncing _ _ _ rfl]
      cases src <;> rfl

theorem emitScroll_focusUpdate (f : Nat) (src : Side) (s : St) (fc : Side) :
    emitScroll f src { s with focused := fc } =
      { emitScroll f src s with focused := fc } := by
  cases f with
  | zero => rfl
  | succ g => exact syncScroll_focusUpdate g src s fc

theorem applyActRaw_focusUpdate (impl : Nat → Int → Nat) (a : GKeyAct)
    (s : St) (fc : Side) :
    applyActRaw impl Side.left a { s with focused := fc } =
      { applyActRaw impl Side.left a s with focused := fc } := by
  cases a with
  | byDelta d => simp [applyActRaw, getScrollPerc_focusUpdate, setScrollPercRaw_focusUpdate]
  | toPerc p => simp [applyActRaw, setScrollPercRaw_focusUpdate]

theorem applyActRaw_syncing (impl : Nat → Int → Nat) (side : Side) (a : GKeyAct) (s : St) :
    (applyActRaw impl side a s).syncing = s.syncing := by
  cases a <;> simp [applyActRaw]

theorem applyActRaw_leftLines (impl : Nat → Int → Nat) (side : Side) (a : GKeyAct) (s : St) :
    (applyActRaw impl side a s).leftLines = s.leftLines := by
  cases a <;> simp [applyActRaw]

theorem applyActRaw_rightLines (impl : Nat → Int → Nat) (side : Side) (a : GKeyAct) (s : St) :
    (applyActRaw impl side a s).rightLines = s.rightLines := by
  cases a <;> simp [applyActRaw]

theorem applyActRaw_focused (impl : Nat → Int → Nat) (side : Side) (a : GKeyAct) (s : St) :
    (applyActRaw impl side a s).focused = s.focused := by
  cases a <;> simp [applyActRaw]

/-- The raw effect of any key action on the left panel leaves it at a
percentage within the clamp range. -/
theorem applyActRaw_left_le (impl : Nat → Int → Nat) (a : GKeyAct) (s : St) :
    getScrollPerc (applyActRaw impl Side.left a s) Side.left ≤ 100 := by
  cases a with
  | byDelta d =>
    rw [show applyActRaw impl Side.left (GKeyAct.byDelta d) s =
      setScrollPercRaw Side.left (impl (getScrollPerc s Side.left) d) s from rfl]
    rw [getScrollPerc_setScrollPercRaw_same]
    exact Nat.min_le_right _ _
  | toPerc p =>
    rw [show applyActRaw impl Side.left (GKeyAct.toPerc p) s =
      setScrollPercRaw Side.left p s from rfl]
    rw [getScrollPerc_setScrollPercRaw_same]
    exact Nat.min_le_right _ _

theorem Side.other_other (side : Side) : Side.other (Side.other side) = side := by
  cases side <;> rfl

/-- Closed form of a global scroll-key handler when the binding exists and
the guard is free: the raw action is applied to the left panel and the left
panel's resulting percentage is copied onto the right panel. -/
theorem handleGlobalKey_closed (impl : Nat → Int → Nat) (f : Nat) (key : String)
    (a : GKeyAct) (s : St) (hk : globalScrollAct key s.leftHeight = some a)
    (hs : s.syncing = false) :
    handleGlobalKey impl f key s =
      setScrollPercRaw Side.right
        (getScrollPerc (applyActRaw impl Side.left a s) Side.left)
        (applyActRaw impl Side.left a s) := by
  have hA : (applyActRaw impl Side.left a s).syncing = false := by
    rw [applyActRaw_syncing]; exact hs
  have hEq : handleGlobalKey impl f key s =
      syncScroll f Side.left (emitScroll f Side.left (applyActRaw impl Side.left a s)) := by
    unfold handleGlobalKey
    rw [hk]
  rw [hEq]
  cases f with
  | zero =>
    rw [show emitScroll 0 Side.left (applyActRaw impl Side.left a s) =
      applyActRaw impl Side.left a s from rfl]
    rw [syncScroll_of_not_syncing _ _ _ hA]
    rfl
  | succ g =>
    rw [show emitScroll (g + 1) Side.left (applyActRaw impl Side.left a s) =
      syncScroll g Side.left (applyActRaw impl Side.left a s) from rfl]
    rw [syncScroll_of_not_syncing _ _ _ hA]
    rw [syncScroll_of_not_syncing _ _ _ (by rw [setScrollPercRaw_syncing]; exact hA)]
    rw [show Side.other Side.left = Side.right from rfl]
    rw [show getScrollPerc
        (setScrollPercRaw Side.right (getScrollPerc (applyActRaw impl Side.left a s) Side.left)
          (applyActRaw impl Side.left a s)) Side.left =
        getScrollPerc (applyActRaw impl Side.left a s) Side.left from rfl]
    cases hA2 : applyActRaw impl Side.left a s
    rfl

/-! ### Claim theorems -/

/-- Claim C1, counterexample: the wrapped right-panel consumer does not
append the Final Text or Tool Calls summary sections (its follow-up retrieval
covers tool results only), while the unwrapped left-panel consumer appends
both — so the claim that every consumer performs all three retrievals and
appends all three summary sections is false on the code. -/
theorem C1_counterexample :
    finalTextHeader ∉ testWithWrapping ⟨[], "T", "C", "R"⟩ ∧
    toolCallsHeader ∉ testWithWrapping ⟨[], "T", "C", "R"⟩ ∧
    finalTextHeader ∈ testWithoutWrapping ⟨[], "T", "C", "R"⟩ ∧
    toolCallsHeader ∈ testWithoutWrapping ⟨[], "T", "C", "R"⟩ := by
  refine ⟨?_, ?_, ?_, ?_⟩ <;> decide

/-- Claim C1, amended: after its stream completes, the unwrapped left-panel
consumer performs all three follow-up retrievals and appends all three
summary sections (final text, tool calls, tool results); the wrapped
right-panel consumer performs only the tool-results retrieval and appends
only the tool-results summary section before its Done line — its output never
depends on the final-text or tool-calls values. -/
theorem C1_amended (r : StreamOutcome) :
    finalTextHeader ∈ testWithoutWrapping r ∧
    toolCallsHeader ∈ testWithoutWrapping r ∧
    toolResultsHeader ∈ testWithoutWrapping r ∧
    doneLine ∈ testWithoutWrapping r ∧
    toolResultsHeader ∈ testWithWrapping r ∧
    doneLine ∈ testWithWrapping r ∧
    (∀ t c2, testWithWrapping { r with finalText := t, toolCallsStr := c2 } =
      testWithWrapping r) ∧
    testWithWrapping r =
      "{yellow-fg}Starting test (wrappedStreamText)...{/yellow-fg}\n" ::
        r.streamLines ++ [toolResultsHeader, r.toolResultsStr, "", doneLine] := by
  refine ⟨?_, ?_, ?_, ?_, ?_, ?_, fun t c2 => rfl, rfl⟩ <;>
    simp [testWithoutWrapping, testWithWrapping]

/-- Claim C2: whichever consumer's run fails with an error carrying a cause
while the other succeeds, the failing consumer's panel receives exactly one
red error line plus one cause line at the catch boundary (and no cause line
for cause-less errors), while the other consumer's panel content — which
reaches its own Done line — is exactly what it would be under any schedule
and any outcome of the failing consumer.  The first arm is the left
(unwrapped) consumer failing, the second arm the right (wrapped) one. -/
theorem C2_error_isolation (f : Nat) (sched : List Bool) (emitted : List String)
    (msg c : String) (r : StreamOutcome) (s : St) :
    ((appRun f sched (ConsumerOutcome.failure emitted msg (some c))
        (ConsumerOutcome.success r) s).1 = ⟨[], []⟩ →
      (appRun f sched (ConsumerOutcome.failure emitted msg (some c))
          (ConsumerOutcome.success r) s).2.leftLines =
        s.leftLines ++ emitted ++ [errorLine msg, causeLine c] ++ [pressQuitLine] ∧
      (appRun f sched (ConsumerOutcome.failure emitted msg (some c))
          (ConsumerOutcome.success r) s).2.rightLines =
        s.rightLines ++ testWithWrapping r ++ [pressQuitLine] ∧
      doneLine ∈ (appRun f sched (ConsumerOutcome.failure emitted msg (some c))
          (ConsumerOutcome.success r) s).2.rightLines ∧
      (∀ sched2 oL2,
        (appRun f sched2 oL2 (ConsumerOutcome.success r) s).1 = ⟨[], []⟩ →
        (appRun f sched2 oL2 (ConsumerOutcome.success r) s).2.rightLines =
          (appRun f sched (ConsumerOutcome.failure emitted msg (some c))
              (ConsumerOutcome.success r) s).2.rightLines)) ∧
    ((appRun f sched (ConsumerOutcome.success r)
        (ConsumerOutcome.failure emitted msg (some c)) s).1 = ⟨[], []⟩ →
      (appRun f sched (ConsumerOutcome.success r)
          (ConsumerOutcome.failure emitted msg (some c)) s).2.rightLines =
        s.rightLines ++ emitted ++ [errorLine msg, causeLine c] ++ [pressQuitLine] ∧
      (appRun f sched (ConsumerOutcome.success r)
          (ConsumerOutcome.failure emitted msg (some c)) s).2.leftLines =
        s.leftLines ++ testWithoutWrapping r ++ [pressQuitLine] ∧
      doneLine ∈ (appRun f sched (ConsumerOutcome.success r)
          (ConsumerOutcome.failure emitted msg (some c)) s).2.leftLines ∧
      (∀ sched2 oR2,
        (appRun f sched2 (ConsumerOutcome.success r) oR2 s).1 = ⟨[], []⟩ →
        (appRun f sched2 (ConsumerOutcome.success r) oR2 s).2.leftLines =
          (appRun f sched (ConsumerOutcome.success r)
              (ConsumerOutcome.failure emitted msg (some c)) s).2.leftLines)) ∧
    (∀ msg2, catchLines msg2 none = [errorLine msg2]) := by
  refine ⟨fun h => ?_, fun h => ?_, fun msg2 => rfl⟩
  · obtain ⟨h1, h2⟩ := appRun_lines _ _ _ _ _ h
    refine ⟨?_, h2, ?_, ?_⟩
    · rw [h1]
      simp [taskLinesLeft, catchLines, List.append_assoc]
    · rw [h2]
      simp [taskLinesRight, testWithWrapping]
    · intro sched2 oL2 h2b
      rw [(appRun_lines _ _ _ _ _ h2b).2, h2]
  · obtain ⟨h1, h2⟩ := appRun_lines _ _ _ _ _ h
    refine ⟨?_, h1, ?_, ?_⟩
    · rw [h2]
      simp [taskLinesRight, catchLines, List.append_assoc]
    · rw [h1]
      simp [taskLinesLeft, testWithoutWrapping]
    · intro sched2 oR2 h1b
      rw [(appRun_lines _ _ _ _ _ h1b).1, h1]

/-- Concrete runs instantiating both arms of `C2_error_isolation`: the left
consumer failing with the right reaching its Done line, and the right
consumer failing with the left reaching its Done line. -/
theorem C2_witness :
    ((appRun 1 [true, true, false, false, false, false, false]
        (ConsumerOutcome.failure [] "boom" (some "c1"))
        (ConsumerOutcome.success ⟨[], "", "", "tr"⟩) sampleSt).1 = ⟨[], []⟩) ∧
    doneLine ∈ (appRun 1 [true, true, false, false, false, false, false]
        (ConsumerOutcome.failure [] "boom" (some "c1"))
        (ConsumerOutcome.success ⟨[], "", "", "tr"⟩) sampleSt).2.rightLines ∧
    ((appRun 1
        [false, false, true, true, true, true, true, true, true, true, true, true, true]
        (ConsumerOutcome.success ⟨[], "", "", "tr"⟩)
        (ConsumerOutcome.failure [] "boom" (some "c1")) sampleSt).1 = ⟨[], []⟩) ∧
    doneLine ∈ (appRun 1
        [false, false, true, true, true, true, true, true, true, true, true, true, true]
        (ConsumerOutcome.success ⟨[], "", "", "tr"⟩)
        (ConsumerOutcome.failure [] "boom" (some "c1")) sampleSt).2.leftLines :=
  ⟨by decide,
   ((C2_error_isolation 1 [true, true, false, false, false, false, false] [] "boom" "c1"
      ⟨[], "", "", "tr"⟩ sampleSt).1 (by decide)).2.2.1,
   by decide,
   ((C2_error_isolation 1
      [false, false, true, true, true, true, true, true, true, true, true, true, true]
      [] "boom" "c1" ⟨[], "", "", "tr"⟩ sampleSt).2.1 (by decide)).2.2.1⟩

/-- Claim C3: for every pair of consumer outcomes (success or failure on each
side) and every interleaving that settles both tasks, the join appends the
press-quit notice to both panels, which therefore both end with it — the join
waits for both tasks and never short-circuits on a failure. -/
theorem C3_settle_all_join (f : Nat) (sched : List Bool) (oL oR : ConsumerOutcome)
    (s : St) (h : (appRun f sched oL oR s).1 = ⟨[], []⟩) :
    (appRun f sched oL oR s).2.leftLines =
      s.leftLines ++ taskLinesLeft oL ++ [pressQuitLine] ∧
    (appRun f sched oL oR s).2.rightLines =
      s.rightLines ++ taskLinesRight oR ++ [pressQuitLine] ∧
    (appRun f sched oL oR s).2.leftLines.getLast? = some pressQuitLine ∧
    (appRun f sched oL oR s).2.rightLines.getLast? = some pressQuitLine := by
  obtain ⟨h1, h2⟩ := appRun_lines f sched oL oR s h
  refine ⟨h1, h2, ?_, ?_⟩
  · rw [h1]; simp
  · rw [h2]; simp

/-- Concrete run instantiating `C3_settle_all_join` with both tasks failing. -/
theorem C3_witness :
    ((appRun 1 [true, false] (ConsumerOutcome.failure [] "e1" none)
        (ConsumerOutcome.failure [] "e2" none) sampleSt).1 = ⟨[], []⟩) ∧
    (appRun 1 [true, false] (ConsumerOutcome.failure [] "e1" none)
        (ConsumerOutcome.failure [] "e2" none) sampleSt).2.leftLines.getLast? =
      some pressQuitLine :=
  ⟨by decide,
   (C3_settle_all_join 1 [true, false] (ConsumerOutcome.failure [] "e1" none)
      (ConsumerOutcome.failure [] "e2" none) sampleSt (by decide)).2.2.1⟩

/-- Claim C4, counterexample: with `ANTHROPIC_API_KEY` set to the empty
string (set, but falsy in JavaScript) and `OPENAI_API_KEY` unset, the claim
says the Anthropic model is selected, but the code takes the fatal path. -/
theorem C4_counterexample :
    (Env.mk (some "") none).anthropicKey ≠ none ∧
    selectModel ⟨some "", none⟩ ≠
      Startup.selected "claude-3-5-haiku-latest" "Claude 3.5 Haiku" ∧
    selectModel ⟨some "", none⟩ = Startup.fatal missingKeyErrors 1 := by
  refine ⟨?_, ?_, ?_⟩ <;> decide

/-- Claim C4, amended: if the Anthropic credential variable is set to a
non-empty string the Anthropic model and displayed name are selected
regardless of the OpenAI variable; otherwise a non-empty OpenAI variable
selects the OpenAI variant; if neither is non-empty, startup fails with
exactly the two stderr lines naming both variables and exit code 1, before
any UI is constructed. -/
theorem C4_amended (env : Env) :
    (truthy env.anthropicKey = true →
      selectModel env = Startup.selected "claude-3-5-haiku-latest" "Claude 3.5 Haiku" ∧
      uiTitle (selectModel env) =
        some "Braintrust Async Generator Repro - Claude 3.5 Haiku") ∧
    (truthy env.anthropicKey = false → truthy env.openaiKey = true →
      selectModel env = Startup.selected "gpt-4o-mini" "GPT-4o Mini" ∧
      uiTitle (selectModel env) =
        some "Braintrust Async Generator Repro - GPT-4o Mini") ∧
    (truthy env.anthropicKey = false → truthy env.openaiKey = false →
      selectModel env = Startup.fatal missingKeyErrors 1 ∧
      missingKeyErrors.length = 2 ∧
      uiTitle (selectModel env) = none) := by
  refine ⟨fun h1 => ?_, fun h1 h2 => ?_, fun h1 h2 => ?_⟩
  · simp [selectModel, h1, uiTitle]
  · simp [selectModel, h1, h2, uiTitle]
  · simp [selectModel, h1, h2, uiTitle, missingKeyErrors]

/-- Concrete instantiations of `C4_amended` on all three arms. -/
theorem C4_witness :
    selectModel ⟨some "k", some "k2"⟩ =
      Startup.selected "claude-3-5-haiku-latest" "Claude 3.5 Haiku" ∧
    selectModel ⟨none, some "k2"⟩ = Startup.selected "gpt-4o-mini" "GPT-4o Mini" ∧
    selectModel ⟨none, none⟩ = Startup.fatal missingKeyErrors 1 :=
  ⟨((C4_amended ⟨some "k", some "k2"⟩).1 (by decide)).1,
   ((C4_amended ⟨none, some "k2"⟩).2.1 (by decide) (by decide)).1,
   ((C4_amended ⟨none, none⟩).2.2 (by decide) (by decide)).1⟩

/-- Claim C5: the SyncGuard is non-reentrant — a synchronization entered
while the guard is held returns without modifying either panel (and the
nested scroll-event emission under a held guard is likewise inert); a
synchronization started with the guard free holds the guard for the
propagation and releases it at the end, and along any interleaving of left-
and right-triggered scroll events the guard is free again after every
event, so no synchronization begins while another is in progress. -/
theorem C5_sync_guard (f : Nat) (src : Side) (s : St) :
    (s.syncing = true → syncScroll f src s = s ∧ emitScroll f src s = s) ∧
    (s.syncing = false →
      syncScroll f src s =
        setScrollPercRaw (Side.other src) (getScrollPerc s src) s ∧
      (syncScroll f src s).syncing = false ∧
      (setScrollPercRaw (Side.other src) (getScrollPerc s src)
        { s with syncing := true }).syncing = true) ∧
    (∀ evs : List Side, s.syncing = false →
      (evs.foldl (fun t e => syncScroll f e t) s).syncing = false) := by
  refine ⟨fun h => ⟨syncScroll_of_syncing f src s h, emitScroll_of_syncing f src s h⟩,
    fun h => ⟨syncScroll_of_not_syncing f src s h,
      by rw [syncScroll_syncing]; exact h, by simp⟩, ?_⟩
  intro evs
  induction evs generalizing s with
  | nil => exact fun h => h
  | cons e rest ih =>
    intro h
    show (rest.foldl (fun t e2 => syncScroll f e2 t) (syncScroll f e s)).syncing = false
    exact ih (syncScroll f e s) (by rw [syncScroll_syncing]; exact h)

/-- Concrete instantiation of `C5_sync_guard`: guard-free propagation takes
the closed form, and a re-entrant call on the guard-held state is inert. -/
theorem C5_witness :
    sampleSt.syncing = false ∧
    syncScroll 1 Side.left sampleSt =
      setScrollPercRaw (Side.other Side.left) (getScrollPerc sampleSt Side.left) sampleSt ∧
    ({ sampleSt with syncing := true } : St).syncing = true ∧
    syncScroll 1 Side.left { sampleSt with syncing := true } =
      { sampleSt with syncing := true } :=
  ⟨rfl, ((C5_sync_guard 1 Side.left sampleSt).2.1 rfl).1, rfl,
   ((C5_sync_guard 1 Side.left { sampleSt with syncing := true }).1 rfl).1⟩

/-- Claim C6: setting any scroll percentage on one panel while the guard is
free leaves the paired panel at the same percentage as the source panel after
the triggered synchronization, without touching either panel's content — so
the mirroring is by percentage and independent of the panels' line counts. -/
theorem C6_scroll_mirrored (f : Nat) (side : Side) (p : Nat) (s : St)
    (hf : 0 < f) (hs : s.syncing = false) :
    getScrollPerc (setScrollPerc f side p s) (Side.other side) =
      getScrollPerc (setScrollPerc f side p s) side ∧
    getScrollPerc (setScrollPerc f side p s) side = min p 100 ∧
    (setScrollPerc f side p s).leftLines = s.leftLines ∧
    (setScrollPerc f side p s).rightLines = s.rightLines := by
  obtain ⟨g, rfl⟩ : ∃ g, f = g + 1 := ⟨f - 1, (Nat.succ_pred_eq_of_pos hf).symm⟩
  have h0 : (setScrollPercRaw side p s).syncing = false := by
    rw [setScrollPercRaw_syncing]; exact hs
  rw [show setScrollPerc (g + 1) side p s =
    syncScroll g side (setScrollPercRaw side p s) from rfl]
  rw [syncScroll_of_not_syncing _ _ _ h0]
  refine ⟨?_, ?_, ?_, ?_⟩
  · have h3 := getScrollPerc_setScrollPercRaw_other (Side.other side)
      (getScrollPerc (setScrollPercRaw side p s) side) (setScrollPercRaw side p s)
    rw [Side.other_other] at h3
    rw [getScrollPerc_setScrollPercRaw_same, h3, getScrollPerc_setScrollPercRaw_same]
    rw [min_assoc, min_self]
  · have h3 := getScrollPerc_setScrollPercRaw_other (Side.other side)
      (getScrollPerc (setScrollPercRaw side p s) side) (setScrollPercRaw side p s)
    rw [Side.other_other] at h3
    rw [h3, getScrollPerc_setScrollPercRaw_same]
  · rw [setScrollPercRaw_leftLines, setScrollPercRaw_leftLines]
  · rw [setScrollPercRaw_rightLines, setScrollPercRaw_rightLines]

/-- Concrete instantiation of `C6_scroll_mirrored` on a state whose two
panels have different content lengths. -/
theorem C6_witness :
    (0 < 1) ∧ sampleSt.syncing = false ∧
    sampleSt.leftLines.length ≠ sampleSt.rightLines.length ∧
    getScrollPerc (setScrollPerc 1 Side.left 37 sampleSt) (Side.other Side.left) =
      getScrollPerc (setScrollPerc 1 Side.left 37 sampleSt) Side.left :=
  ⟨Nat.zero_lt_one, rfl, by decide,
   (C6_scroll_mirrored 1 Side.left 37 sampleSt Nat.zero_lt_one rfl).1⟩

/-- Claim C7: after any sequence of appends a panel's line list is the old
list followed by all appended lines in call order (and its rendered content
is their join), and immediately after any append the appending panel's scroll
percentage reads 100 — in particular at the end of a non-empty sequence. -/
theorem C7_append_contract (f : Nat) (msgs : List String) (m : String) (s : St) :
    (appendAllLeft f msgs s).leftLines = s.leftLines ++ msgs ∧
    panelContent (appendAllLeft f msgs s).leftLines =
      panelContent (s.leftLines ++ msgs) ∧
    (logLeft f m s).leftPerc = 100 ∧
    (appendAllRight f msgs s).rightLines = s.rightLines ++ msgs ∧
    (logRight f m s).rightPerc = 100 ∧
    (msgs ≠ [] →
      (appendAllLeft f msgs s).leftPerc = 100 ∧
      (appendAllRight f msgs s).rightPerc = 100) := by
  refine ⟨appendAllLeft_leftLines f msgs s, ?_, ?_,
    appendAllRight_rightLines f msgs s, ?_,
    fun h => ⟨appendAllLeft_leftPerc f msgs s h, appendAllRight_rightPerc f msgs s h⟩⟩
  · rw [appendAllLeft_leftLines]
  · rw [logLeft_closed]
  · rw [logRight_closed]

/-- Concrete instantiation of `C7_append_contract`. -/
theorem C7_witness :
    (appendAllLeft 1 ["x", "y"] sampleSt).leftLines = sampleSt.leftLines ++ ["x", "y"] ∧
    ((["x", "y"] : List String) ≠ []) ∧
    (appendAllLeft 1 ["x", "y"] sampleSt).leftPerc = 100 :=
  ⟨(C7_append_contract 1 ["x", "y"] "m" sampleSt).1, by decide,
   ((C7_append_contract 1 ["x", "y"] "m" sampleSt).2.2.2.2.2 (by decide)).1⟩

/-- Claim C8: every bound global scroll key, under any focus state and with
the guard free, applies its scroll action to the fixed left panel (the left
panel ends at exactly the percentage the raw action gives it), propagates
that percentage to the right panel through the synchronizer, touches no
content, and behaves identically whichever panel holds focus. -/
theorem C8_global_scroll_keys (impl : Nat → Int → Nat) (f : Nat) (key : String)
    (a : GKeyAct) (s : St) (hk : globalScrollAct key s.leftHeight = some a)
    (hs : s.syncing = false) :
    getScrollPerc (handleGlobalKey impl f key s) Side.left =
      getScrollPerc (applyActRaw impl Side.left a s) Side.left ∧
    getScrollPerc (handleGlobalKey impl f key s) Side.right =
      getScrollPerc (handleGlobalKey impl f key s) Side.left ∧
    (handleGlobalKey impl f key s).leftLines = s.leftLines ∧
    (handleGlobalKey impl f key s).rightLines = s.rightLines ∧
    (handleGlobalKey impl f key s).focused = s.focused ∧
    (∀ fc : Side, handleGlobalKey impl f key { s with focused := fc } =
      { handleGlobalKey impl f key s with focused := fc }) := by
  rw [handleGlobalKey_closed impl f key a s hk hs]
  refine ⟨rfl, ?_, ?_, ?_, ?_, ?_⟩
  · rw [show getScrollPerc
      (setScrollPercRaw Side.right
        (getScrollPerc (applyActRaw impl Side.left a s) Side.left)
        (applyActRaw impl Side.left a s)) Side.right =
      min (getScrollPerc (applyActRaw impl Side.left a s) Side.left) 100 from rfl]
    rw [show getScrollPerc
      (setScrollPercRaw Side.right
        (getScrollPerc (applyActRaw impl Side.left a s) Side.left)
        (applyActRaw impl Side.left a s)) Side.left =
      getScrollPerc (applyActRaw impl Side.left a s) Side.left from rfl]
    exact Nat.min_eq_left (applyActRaw_left_le impl a s)
  · rw [setScrollPercRaw_leftLines, applyActRaw_leftLines]
  · rw [setScrollPercRaw_rightLines, applyActRaw_rightLines]
  · rw [setScrollPercRaw_focused, applyActRaw_focused]
  · intro fc
    have hk2 : globalScrollAct key ({ s with focused := fc } : St).leftHeight = some a := hk
    have hs2 : ({ s with focused := fc } : St).syncing = false := hs
    rw [handleGlobalKey_closed impl f key a _ hk2 hs2, applyActRaw_focusUpdate,
      getScrollPerc_focusUpdate, setScrollPercRaw_focusUpdate]

/-- Concrete instantiation of `C8_global_scroll_keys`: the down/j binding on
a state whose focus is on the right panel still scrolls the left panel and
mirrors it onto the right. -/
theorem C8_witness :
    globalScrollAct "down" sampleSt.leftHeight = some (GKeyAct.byDelta 1) ∧
    sampleSt.syncing = false ∧
    sampleSt.focused = Side.right ∧
    getScrollPerc (handleGlobalKey implSample 1 "down" sampleSt) Side.right =
      getScrollPerc (handleGlobalKey implSample 1 "down" sampleSt) Side.left :=
  ⟨by decide, rfl, rfl,
   (C8_global_scroll_keys implSample 1 "down" (GKeyAct.byDelta 1) sampleSt
      (by decide) rfl).2.1⟩

/-- Claim C9: for every name, the greeting tool's execute routine yields
exactly 4 status objects in the fixed order starting, processing, generating,
done — the last carrying the greeting string — and (surfacing modelled from
the spec) each becomes its own StreamEvent in that order. -/
theorem C9_tool_stream_events (name : String) :
    surfaceYields (execYields name) =
      [StreamEvent.toolUpdate
        { status := "starting", message := some "Preparing greeting...", greeting := none },
       StreamEvent.toolUpdate
        { status := "processing", message := some ("Looking up " ++ name ++ "..."),
          greeting := none },
       StreamEvent.toolUpdate
        { status := "generating", message := some "Generating greeting...", greeting := none },
       StreamEvent.toolUpdate
        { status := "done", message := none,
          greeting := some ("Hello, " ++ name ++ "!") }] ∧
    (surfaceYields (execYields name)).length = 4 :=
  ⟨rfl, rfl⟩

/-- Claim C10: an append to one panel (guard free) also synchronizes the
opposite panel's scroll percentage to the appending panel's (both end at
100), while leaving the opposite panel's content untouched — append is not
scroll-local to its own panel. -/
theorem C10_append_syncs_other (f : Nat) (m : String) (s : St)
    (hs : s.syncing = false) :
    (logLeft f m s).rightPerc = (logLeft f m s).leftPerc ∧
    (logLeft f m s).rightLines = s.rightLines ∧
    (logLeft f m s).leftPerc = 100 ∧
    (logRight f m s).leftPerc = (logRight f m s).rightPerc ∧
    (logRight f m s).leftLines = s.leftLines ∧
    (logRight f m s).rightPerc = 100 := by
  rw [logLeft_closed, logRight_closed]
  simp [hs]

/-- Concrete instantiation of `C10_append_syncs_other`. -/
theorem C10_witness :
    sampleSt.syncing = false ∧
    (logLeft 1 "z" sampleSt).rightPerc = (logLeft 1 "z" sampleSt).leftPerc ∧
    (logLeft 1 "z" sampleSt).rightLines = sampleSt.rightLines :=
  ⟨rfl, (C10_append_syncs_other 1 "z" sampleSt rfl).1,
   (C10_append_syncs_other 1 "z" sampleSt rfl).2.1⟩

end Repro
